import Mathlib

/-
Verification of the bup-cron orchestrator (src/bup_cron/__init__.py).

The development shallowly embeds the parts of the program that the claims
are about:

* the `Bup` command facade (`init`, `clear_index`, `index`, `save`, `fsck`):
  each helper builds an argv list and runs it through
  `GlobalLogger.check_call`, which returns a Boolean;
* the `Pidfile` lock (`create`, `_check`, `remove`, `__exit__`);
* the `LvmSnapshot.cleanup` routine;
* the `process` loop and the tail of `main` (exit-status dispatch).

External command execution is modelled by an oracle: a list of Booleans
consumed one per spawned command (the value `GlobalLogger.check_call`
would return), together with a trace of the events the run performs.
-/

namespace BupCron

/-- One observable step of a run: an external command spawned through
`GlobalLogger.check_call` (recorded with its argv list), or the snapshot
cleanup that `Snapshot.__exit__` performs for a source path at the end of
each loop iteration of `process`. -/
inductive Event where
  | call (cmd : List String)
  | snapshotCleanup (path : String)
deriving DecidableEq, Repr

/-- The external world seen by a run: `results` is the oracle of values
`GlobalLogger.check_call` returns for successive commands; `log` is the
trace of events performed so far. -/
structure Exec where
  results : List Bool
  log : List Event
deriving DecidableEq, Repr

/-- Model of `GlobalLogger.check_call` (source lines 944-958): spawn `cmd`,
record it, and report the next oracle outcome (`False` on
`CalledProcessError`).  An exhausted oracle reports failure. -/
def callCmd (cmd : List String) (e : Exec) : Bool × Exec :=
  match e.results with
  | [] => (false, Exec.mk [] (e.log ++ [Event.call cmd]))
  | r :: rest => (r, Exec.mk rest (e.log ++ [Event.call cmd]))

/-- The validated configuration `process` and `main` receive from
`ArgumentConfigParser.parse_args` (only the fields the embedded code
reads).  `verbose` is the `-v` count; `check` already includes the
`args.check |= args.repair` normalisation done by `parse_args`. -/
structure Args where
  paths : List String
  name : Option String
  branchName : Option String
  remote : Option String
  exclude : List String
  excludeRx : List String
  excludeFrom : List String
  excludeRxFrom : List String
  clear : Bool
  parity : Bool
  check : Bool
  repair : Bool
  verbose : Nat

/-- Python `c in s` membership test on a string, used by `Bup.save` for
the separator test on the graft argument. -/
def strHasChar (s : String) (c : Char) : Bool :=
  s.data.any (fun x => x == c)

/-- Python `s.replace("/", "_")` for the one-character pattern used at
source line 1201: every slash becomes an underscore. -/
def underscorePath (s : String) : String :=
  String.mk (s.data.map (fun c => if c = '/' then '_' else c))

/-- Branch-name computation of `process` (source lines 1196-1202):
the explicit `--branch-name` if given, else `name` (or the hostname when
`--name` is absent), a hyphen, and the source path with slashes replaced
by underscores. -/
def computeBranch (branchName : Option String) (name : Option String)
    (hostname : String) (srcPath : String) : String :=
  match branchName with
  | some b => b
  | none =>
    (match name with
     | some n => n
     | none => hostname) ++ "-" ++ underscorePath srcPath

/-- The address part of a `-r addr:path` remote, as produced by Python
`remote_rep.split(":")` in `Bup.fsck`: the characters before the first
colon.  (Python raises `ValueError` when the number of colons is not
exactly one; no claim exercises that case.) -/
def remoteAddr (r : String) : String :=
  String.mk (r.data.takeWhile (fun c => !(c == ':')))

/-- The path part of a `-r addr:path` remote: the characters after the
first colon (see `remoteAddr` for the Python unpacking caveat). -/
def remotePath (r : String) : String :=
  String.mk ((r.data.dropWhile (fun c => !(c == ':'))).drop 1)

/-- Argv for `Bup.init` (source lines 656-662). -/
def initCmd (remote : Option String) : List String :=
  ["bup", "init"] ++ (match remote with
    | some r => ["-r", r]
    | none => [])

/-- Argv for `Bup.clear_index` (source lines 664-667). -/
def clearIndexCmd : List String :=
  ["bup", "index", "--clear"]

/-- The command head shared by every `Bup.fsck` invocation (source lines
671-678): local `bup fsck`, or over ssh for a remote repository, plus the
verbosity flag. -/
def fsckBase (remote : Option String) (v : Nat) : List String :=
  (match remote with
   | none => ["bup", "fsck"]
   | some r => ["ssh", remoteAddr r, "bup", "-d", remotePath r, "fsck"])
  ++ (if 3 ≤ v then ["--verbose"] else [])

/-- Argv for `Bup.index` (source lines 698-719). -/
def indexCmd (v : Nat) (path : String)
    (ex exRx exFrom exRxFrom : List String) (oneFs : Bool) : List String :=
  ["bup", "index"]
  ++ (if 3 ≤ v then ["--verbose"] else [])
  ++ ex.map (fun x => "--exclude=" ++ x)
  ++ exRx.map (fun x => "--exclude-rx=" ++ x)
  ++ exFrom.map (fun x => "--exclude-from=" ++ x)
  ++ exRxFrom.map (fun x => "--exclude-rx-from=" ++ x)
  ++ (if oneFs then ["--one-file-system"] else [])
  ++ [path]

/-- Verbosity section of `Bup.save` (source lines 725-728): `--quiet`
when verbose is 0, `--verbose` from verbosity 3 up. -/
def saveVerbosity (v : Nat) : List String :=
  if v = 0 then ["--quiet"] else if 3 ≤ v then ["--verbose"] else []

/-- Remote section of `Bup.save` (source lines 729-730). -/
def saveRemote (remote : Option String) : List String :=
  match remote with
  | some r => ["-r", r]
  | none => []

/-- Graft/strip section of `Bup.save` (source lines 732-735): an argument
containing the separator character is passed as a rename mapping via
`--graft`, otherwise as a prefix to strip via `--strip-path`. -/
def saveGraft (graft : String) : List String :=
  if strHasChar graft '=' then ["--graft", graft] else ["--strip-path", graft]

/-- Tree/commit section of `Bup.save` (source lines 738-739). -/
def saveTree (v : Nat) : List String :=
  if 2 ≤ v then ["--tree", "--commit"] else []

/-- Argv for `Bup.save` (source lines 721-741). -/
def saveCmd (v : Nat) (paths : List String) (branch graft : String)
    (remote : Option String) : List String :=
  ["bup", "save"] ++ saveVerbosity v ++ saveRemote remote
  ++ ["--name", branch] ++ saveGraft graft ++ saveTree v ++ paths

/-- C7: for every graft/strip argument passed to `Bup.save`, the built
command carries `--graft` with that argument when it contains the
separator character, and `--strip-path` with it otherwise. -/
theorem C7_save_graft_choice (v : Nat) (paths : List String)
    (branch : String) (remote : Option String) (graft : String) :
    (strHasChar graft '=' = true →
       saveCmd v paths branch graft remote =
         ["bup", "save"] ++ saveVerbosity v ++ saveRemote remote
         ++ ["--name", branch] ++ ["--graft", graft] ++ saveTree v ++ paths)
  ∧ (strHasChar graft '=' = false →
       saveCmd v paths branch graft remote =
         ["bup", "save"] ++ saveVerbosity v ++ saveRemote remote
         ++ ["--name", branch] ++ ["--strip-path", graft] ++ saveTree v ++ paths) := by
  constructor
  · intro h
    simp [saveCmd, saveGraft, h]
  · intro h
    simp [saveCmd, saveGraft, h]

/-- Witness for C7 at concrete grafts: one with the separator, one
without. -/
theorem C7_witness :
    (saveCmd 1 ["/mnt/snap/home"] "b" "/mnt/snap=/orig" none =
       ["bup", "save"] ++ saveVerbosity 1 ++ saveRemote none
       ++ ["--name", "b"] ++ ["--graft", "/mnt/snap=/orig"] ++ saveTree 1
       ++ ["/mnt/snap/home"])
  ∧ (saveCmd 1 ["/mnt/snap/home"] "b" "/mnt/snap" none =
       ["bup", "save"] ++ saveVerbosity 1 ++ saveRemote none
       ++ ["--name", "b"] ++ ["--strip-path", "/mnt/snap"] ++ saveTree 1
       ++ ["/mnt/snap/home"]) :=
  ⟨(C7_save_graft_choice 1 ["/mnt/snap/home"] "b" none "/mnt/snap=/orig").1 (by decide),
   (C7_save_graft_choice 1 ["/mnt/snap/home"] "b" none "/mnt/snap").2 (by decide)⟩

/-! ## The Pidfile lock -/

/-- Outcome of the zero-signal probe `os.kill(pid, 0)` performed by
`Pidfile._check` (source lines 847-859): the probe succeeds, the process
does not exist (`ESRCH`), or delivery is denied (`EPERM`).  These are
the only errors a zero-signal `os.kill` of a valid pid can raise, so the
handler's fall-through for other errnos is not modelled. -/
inductive ProbeResult where
  | ok
  | esrch
  | eperm
deriving DecidableEq, Repr

/-- The host state `Pidfile` interacts with: the lock file's content
(`none` when the file is absent), the `/proc/<pid>` directory test, the
zero-signal probe, and whether removing the stale file and re-creating
the lock succeeds (`false` models the `EACCES` branch of
`Pidfile.create`). -/
structure PidSystem where
  lockContent : Option String
  procDirExists : Nat → Bool
  kill0 : Nat → ProbeResult
  accessOk : Bool

/-- Python `int(pidstr)` as used by `Pidfile._check`, for the contents a
lock file can hold: a non-empty all-digit string parses to its decimal
value, anything else raises `ValueError` (modelled as `none`).  Python's
`int` also accepts signs and surrounding whitespace, which cannot occur
in a file written from `os.getpid()`. -/
def parsePid (s : String) : Option Nat :=
  if !s.data.isEmpty && s.data.all (fun c => c.isDigit) then
    some (s.data.foldl (fun n c => 10 * n + (c.toNat - 48)) 0)
  else none

/-- Model of `Pidfile._check` (source lines 822-859): parse the stored
pid (unparsable content is stale, `none`); a pid whose `/proc` entry
exists, whose probe succeeds, or whose probe is denied with `EPERM` is
the live holder (`some pid`); a probe failing with `ESRCH` means the
process is gone (stale, `none`). -/
def pidfileCheck (content : String) (s : PidSystem) : Option Nat :=
  match parsePid content with
  | none => none
  | some pid =>
    if s.procDirExists pid then some pid
    else
      match s.kill0 pid with
      | ProbeResult.esrch => none
      | ProbeResult.eperm => some pid
      | ProbeResult.ok => some pid

/-- Result of `Pidfile.create`: the lock was acquired (recording whether
a stale file was removed first), or a `ProcessRunningException` was
raised carrying the holder pid, or — in the `EACCES` retry branch —
carrying the raw file contents. -/
inductive CreateResult where
  | acquired (removedStale : Bool)
  | lockHeld (pid : Nat)
  | lockHeldRaw (content : String)
deriving DecidableEq, Repr

/-- The stale branch of `Pidfile.create` (source lines 795-809): remove
the old file and retry the exclusive creation; on `EACCES` raise
`ProcessRunningException` with the raw file contents. -/
def staleAcquire (s : PidSystem) (content : String) : CreateResult :=
  if s.accessOk then CreateResult.acquired true
  else CreateResult.lockHeldRaw content

/-- Model of `Pidfile.create` (source lines 784-815).  A fresh exclusive
creation succeeds when no lock file exists.  On `EEXIST` the result of
`_check` decides: a live pid raises `ProcessRunningException(pid)`
(Python's `if pid:` also sends pid 0 to the stale branch), otherwise the
stale file is removed and creation is retried. -/
def pidfileCreate (s : PidSystem) : CreateResult :=
  match s.lockContent with
  | none => CreateResult.acquired false
  | some content =>
    match pidfileCheck content s with
    | some pid =>
      if pid = 0 then staleAcquire s content else CreateResult.lockHeld pid
    | none => staleAcquire s content

/-- C3: when the lock file exists, unparsable content or a dead holder
makes `Pidfile.create` remove the stale file and acquire the lock
(provided removal/recreation is permitted), while a holder that is alive
in `/proc`, answers the zero-signal probe, or denies it with `EPERM`
makes acquisition raise the lock-held exception carrying that pid. -/
theorem C3_stale_lock_handling (s : PidSystem) (c : String)
    (hc : s.lockContent = some c) (hacc : s.accessOk = true) :
    (parsePid c = none → pidfileCreate s = CreateResult.acquired true)
  ∧ (∀ pid, parsePid c = some pid → s.procDirExists pid = false →
       s.kill0 pid = ProbeResult.esrch →
       pidfileCreate s = CreateResult.acquired true)
  ∧ (∀ pid, parsePid c = some pid → pid ≠ 0 →
       (s.procDirExists pid = true ∨ s.kill0 pid = ProbeResult.ok ∨
        s.kill0 pid = ProbeResult.eperm) →
       pidfileCreate s = CreateResult.lockHeld pid) := by
  refine ⟨?_, ?_, ?_⟩
  · intro h
    simp [pidfileCreate, hc, pidfileCheck, h, staleAcquire, hacc]
  · intro pid hp hproc hkill
    simp [pidfileCreate, hc, pidfileCheck, hp, hproc, hkill, staleAcquire, hacc]
  · intro pid hp hpid halive
    rcases halive with hproc | hkill | hkill
    · simp [pidfileCreate, hc, pidfileCheck, hp, hproc, hpid]
    · cases hproc : s.procDirExists pid <;>
        simp [pidfileCreate, hc, pidfileCheck, hp, hproc, hkill, hpid]
    · cases hproc : s.procDirExists pid <;>
        simp [pidfileCreate, hc, pidfileCheck, hp, hproc, hkill, hpid]

/-- A host on which the lock file names pid 42 and that process is alive
in `/proc`. -/
def alivePidSystem : PidSystem :=
  { lockContent := some "42"
    procDirExists := fun _ => true
    kill0 := fun _ => ProbeResult.ok
    accessOk := true }

/-- Witness for C3: on `alivePidSystem`, acquisition raises the
lock-held exception carrying pid 42. -/
theorem C3_witness :
    pidfileCreate alivePidSystem = CreateResult.lockHeld 42 :=
  (C3_stale_lock_handling alivePidSystem "42" rfl rfl).2.2 42 (by decide)
    (by decide) (Or.inl rfl)

/-- Exceptions distinguished by `Pidfile.__exit__` (source lines
767-782): the lock-held `ProcessRunningException`, or any other
exception. -/
inductive ExcKind where
  | lockHeld
  | other
deriving DecidableEq, Repr

/-- How the guarded scope's body ends: normally, or by raising one of the
two exception kinds. -/
inductive BodyOutcome where
  | normal
  | raiseLockHeld
  | raiseOther
deriving DecidableEq, Repr

/-- Model of `Pidfile.__exit__` (source lines 767-782).  Returns
(file removed, exception suppressed).  No exception: remove and suppress.
`ProcessRunningException`: keep the other process's file and re-raise.
Any other exception: remove the file when `self.pidfd` is truthy (the
fd from a successful `create`) and re-raise. -/
def pidfileExit (t : Option ExcKind) (pidfd : Option Nat) : Bool × Bool :=
  match t with
  | none => (true, true)
  | some ExcKind.lockHeld => (false, false)
  | some ExcKind.other =>
    ((match pidfd with
      | some fd => fd != 0
      | none => false), false)

/-- The `with Pidfile(...)` statement around the run (source line 1259):
`__enter__` runs `create`; if it raises, CPython propagates without
calling `__exit__` (so the other process's file is untouched); otherwise
the body runs and `__exit__` decides removal and re-raising.  `fd` is the
descriptor `os.open` returned to `create`.  Result: (lock file removed by
this process, exception propagates out of the statement). -/
def withPidfile (s : PidSystem) (fd : Nat) (body : BodyOutcome) : Bool × Bool :=
  match pidfileCreate s with
  | CreateResult.lockHeld _ => (false, true)
  | CreateResult.lockHeldRaw _ => (false, true)
  | CreateResult.acquired _ =>
    match body with
    | BodyOutcome.normal =>
      let r := pidfileExit none (some fd)
      (r.1, !r.2)
    | BodyOutcome.raiseLockHeld =>
      let r := pidfileExit (some ExcKind.lockHeld) (some fd)
      (r.1, !r.2)
    | BodyOutcome.raiseOther =>
      let r := pidfileExit (some ExcKind.other) (some fd)
      (r.1, !r.2)

/-- C4: after a successful acquisition the lock file is removed both on
normal completion of the scope and on any other exception; when
acquisition itself raises the lock-held exception, the file is never
removed, whatever the body would have done. -/
theorem C4_lock_release (s : PidSystem) (fd : Nat) (hfd : fd ≠ 0) :
    (∀ st, pidfileCreate s = CreateResult.acquired st →
       (withPidfile s fd BodyOutcome.normal).1 = true
     ∧ (withPidfile s fd BodyOutcome.raiseOther).1 = true)
  ∧ (∀ pid, pidfileCreate s = CreateResult.lockHeld pid →
       ∀ b, (withPidfile s fd b).1 = false)
  ∧ (∀ c, pidfileCreate s = CreateResult.lockHeldRaw c →
       ∀ b, (withPidfile s fd b).1 = false) := by
  refine ⟨?_, ?_, ?_⟩
  · intro st hacq
    constructor <;> simp [withPidfile, hacq, pidfileExit, hfd]
  · intro pid hheld b
    simp [withPidfile, hheld]
  · intro c hheld b
    simp [withPidfile, hheld]

/-- A host with no lock file present. -/
def pidFreeSystem : PidSystem :=
  { lockContent := none
    procDirExists := fun _ => false
    kill0 := fun _ => ProbeResult.esrch
    accessOk := true }

/-- Witness for C4: on a free host with fd 3, the file is removed on
normal exit and on a non-lock-held exception. -/
theorem C4_witness :
    (withPidfile pidFreeSystem 3 BodyOutcome.normal).1 = true
  ∧ (withPidfile pidFreeSystem 3 BodyOutcome.raiseOther).1 = true :=
  (C4_lock_release pidFreeSystem 3 (by decide)).1 false rfl

/-! ## The fsck facade and the verify step of `process` -/

/-- Model of `Bup.fsck` (source lines 669-696).  With `parity` it runs
`--par2-ok` and, only when that succeeds, `--generate`; else with
`repair` it runs `--repair`; else the check runs `--quick`. -/
def bupFsck (remote : Option String) (v : Nat) (pa rp : Bool) (e : Exec) :
    Bool × Exec :=
  if pa then
    let c1 := callCmd (fsckBase remote v ++ ["--par2-ok"]) e
    if c1.1 then callCmd (fsckBase remote v ++ ["--generate"]) c1.2
    else (false, c1.2)
  else if rp then
    callCmd (fsckBase remote v ++ ["--repair"]) e
  else
    callCmd (fsckBase remote v ++ ["--quick"]) e

/-- The verify step of `process` (source lines 1207-1216), reached when
`args.check` is set: call `Bup.fsck(remote, repair=args.repair)`; when it
fails, call `Bup.fsck(remote)` again and report that second outcome as
the path's verify success. -/
def verifyStep (remote : Option String) (v : Nat) (rp : Bool) (e : Exec) :
    Bool × Exec :=
  let f1 := bupFsck remote v false rp e
  if f1.1 then (true, f1.2)
  else
    let f2 := bupFsck remote v false false f1.2
    (f2.1, f2.2)

/-- C5 (claim contradicted by the code): with repair enabled the first
fsck invocation of the verify step is `bup fsck --repair` — there is no
initial `--quick` check — and with repair disabled a failed `--quick`
check triggers a second `--quick` run whose success leaves the path
marked successful instead of failing immediately. -/
theorem C5_fsck_behavior :
    (verifyStep none 0 true (Exec.mk [false, false] [])).2.log =
      [Event.call ["bup", "fsck", "--repair"],
       Event.call ["bup", "fsck", "--quick"]]
  ∧ (verifyStep none 0 true (Exec.mk [false, false] [])).1 = false
  ∧ verifyStep none 0 false (Exec.mk [false, true] []) =
      (true, Exec.mk []
        [Event.call ["bup", "fsck", "--quick"],
         Event.call ["bup", "fsck", "--quick"]]) :=
  ⟨rfl, rfl, rfl⟩

/-! ## The `process` loop

Each loop iteration of `process` (source lines 1170-1224) opens a scoped
snapshot for the source path, indexes the snapshot's materialized path,
saves it, optionally verifies and requests parity, and cleans the
snapshot up on scope exit.  Snapshot materialization is abstracted as a
function `m` from source path to materialized path (`Snapshot.__enter__`
leaves `src_path` untouched and rewrites `path`; `NoSnapshot` is the
identity, and so is any degraded LVM snapshot).  The optional statistics
branch (`args.stats`) is not embedded: it issues only git-note commands
whose outcome never touches the success flag. -/

/-- Record the cleanup `Snapshot.__exit__` performs at the end of a loop
iteration (source lines 369-377). -/
def logCleanup (p : String) (e : Exec) : Exec :=
  Exec.mk e.results (e.log ++ [Event.snapshotCleanup p])

/-- The part of a loop iteration after a successful save command was
spawned (source lines 1207-1224): optional verify, optional parity
(result only warned about), then snapshot cleanup.  Returns the verify
contribution to the path's success. -/
def postSave (a : Args) (p : String) (e : Exec) : Bool × Exec :=
  let vr := if a.check then verifyStep a.remote a.verbose a.repair e
            else (true, e)
  let pr := if a.parity then (bupFsck a.remote a.verbose true false vr.2).2
            else vr.2
  (vr.1, logCleanup p pr)

/-- One loop iteration of `process` for source path `p` (source lines
1170-1224): index the materialized path `m p`; on failure the path is
failed and the iteration skips to cleanup (`continue` leaves the `with`
scope normally).  Otherwise save `[m p]` under the computed branch with
the materialized path itself as the graft/strip argument, then run
`postSave`.  Returns the path's aggregated success flag. -/
def processPath (a : Args) (hn : String) (m : String → String) (p : String)
    (e : Exec) : Bool × Exec :=
  let idx := callCmd
    (indexCmd a.verbose (m p) a.exclude a.excludeRx a.excludeFrom
      a.excludeRxFrom true) e
  if idx.1 then
    let sv := callCmd
      (saveCmd a.verbose [m p] (computeBranch a.branchName a.name hn p)
        (m p) a.remote) idx.2
    let ps := postSave a p sv.2
    (sv.1 && ps.1, ps.2)
  else
    (false, logCleanup p idx.2)

/-- The loop of `process` over the configured paths, threading the
single `success` accumulator exactly as the source does (it is only ever
conjoined with each path's outcome). -/
def processPaths (a : Args) (hn : String) (m : String → String) :
    List String → Bool → Exec → Bool × Exec
  | [], acc, e => (acc, e)
  | p :: rest, acc, e =>
    processPaths a hn m rest (acc && (processPath a hn m p e).1)
      (processPath a hn m p e).2

/-- The per-path aggregated success flags of a run, in path order,
threading the same oracle as `processPaths`. -/
def pathResults (a : Args) (hn : String) (m : String → String) :
    List String → Exec → List Bool × Exec
  | [], e => ([], e)
  | p :: rest, e =>
    ((processPath a hn m p e).1 ::
       (pathResults a hn m rest (processPath a hn m p e).2).1,
     (pathResults a hn m rest (processPath a hn m p e).2).2)

/-- Model of `process` (source lines 1164-1228): the loop starting from
`success = True`. -/
def process (a : Args) (hn : String) (m : String → String) (e : Exec) :
    Bool × Exec :=
  processPaths a hn m a.paths true e

/-! ## The tail of `main` -/

/-- How the Python process ends: a `sys.exit(code)` that propagated, a
normal return from `main` (the interpreter then exits 0), or an
exception that escaped `main` (the interpreter prints a traceback and
exits 1). -/
inductive MainOutcome where
  | exited (code : Nat)
  | returned
  | uncaught
deriving DecidableEq, Repr

/-- The process exit status each outcome produces, per CPython semantics:
a propagated `sys.exit(code)` exits with `code`, a normal return exits 0,
an uncaught exception exits 1. -/
def exitCode : MainOutcome → Nat
  | MainOutcome.exited c => c
  | MainOutcome.returned => 0
  | MainOutcome.uncaught => 1

/-- The end of `main` after the `try` block (source lines 1275-1278):
`bail(0)` on success, `bail(1)` otherwise; these `sys.exit` calls are
outside the `try` and propagate. -/
def runBody (a : Args) (hn : String) (m : String → String) (e : Exec) :
    MainOutcome × Exec :=
  let r := process a hn m e
  (MainOutcome.exited (if r.1 then 0 else 1), r.2)

/-- The `with Pidfile` section of `main` (source lines 1259-1264) plus
the exception handling around it.  A `ProcessRunningException` from
acquisition reaches the bare `raise` of the `except:` clause (source
line 1268) and escapes `main`.  When `--clear` is set on a repository
that was not just initialised and `bup index --clear` fails, the typo
`logging.warninging` (source line 1262) raises `AttributeError`, which
the same bare `raise` lets escape. -/
def mainWithLock (a : Args) (hn : String) (m : String → String)
    (initialised : Bool) (lock : PidSystem) (e : Exec) : MainOutcome × Exec :=
  match pidfileCreate lock with
  | CreateResult.lockHeld _ => (MainOutcome.uncaught, e)
  | CreateResult.lockHeldRaw _ => (MainOutcome.uncaught, e)
  | CreateResult.acquired _ =>
    if a.clear && !initialised then
      let r := callCmd clearIndexCmd e
      if r.1 then runBody a hn m r.2
      else (MainOutcome.uncaught, r.2)
    else runBody a hn m e

/-- The `try` block of `main` (source lines 1252-1278).  When the
repository directory is absent, `bup init` runs first; if it fails,
`bail(3, ...)` raises `SystemExit(3)` *inside* the `try`, the
`except SystemExit: return` clause catches it, and `main` returns —
the interpreter exits 0, not 3. -/
def mainRun (a : Args) (hn : String) (m : String → String)
    (repoExists : Bool) (lock : PidSystem) (e : Exec) : MainOutcome × Exec :=
  if repoExists then
    mainWithLock a hn m false lock e
  else
    let r := callCmd (initCmd a.remote) e
    if r.1 then mainWithLock a hn m true lock r.2
    else (MainOutcome.returned, r.2)

/-- A minimal validated configuration: one path, base name `myhost`,
local repository, no optional jobs, quiet. -/
def sampleArgs : Args :=
  { paths := ["/home"]
    name := some "myhost"
    branchName := none
    remote := none
    exclude := []
    excludeRx := []
    excludeFrom := []
    excludeRxFrom := []
    clear := false
    parity := false
    check := false
    repair := false
    verbose := 0 }

/-- The success flag of the loop is the accumulator conjoined with the
conjunction of the per-path flags. -/
theorem processPaths_eq_all (a : Args) (hn : String) (m : String → String) :
    ∀ (ps : List String) (acc : Bool) (e : Exec),
      (processPaths a hn m ps acc e).1 =
        (acc && (pathResults a hn m ps e).1.all id) := by
  intro ps
  induction ps with
  | nil => intro acc e; simp [processPaths, pathResults]
  | cons p rest ih =>
    intro acc e
    simp only [processPaths, pathResults, List.all_cons, id]
    rw [ih]
    cases (processPath a hn m p e).1 <;> cases acc <;> simp

/-- Conjunction over a list of Booleans is invariant under permutation. -/
theorem all_id_perm {l₁ l₂ : List Bool} (h : l₁.Perm l₂) :
    l₁.all id = l₂.all id := by
  induction h with
  | nil => rfl
  | cons x _ ih => simp [List.all_cons, ih]
  | swap x y l =>
    cases x <;> cases y <;> simp [List.all_cons]
  | trans _ _ ih₁ ih₂ => rw [ih₁, ih₂]

/-- C1: the flag `process` returns is true exactly when every per-path
aggregated success flag is true; the conjunction is order-independent;
and (with the repository present, no `--clear`, and the lock acquired)
`main` exits 0 when the flag is true and 1 when it is false. -/
theorem C1_overall_success (a : Args) (hn : String) (m : String → String)
    (e : Exec) (lock : PidSystem) (st : Bool)
    (hclear : a.clear = false)
    (hlock : pidfileCreate lock = CreateResult.acquired st) :
    ((process a hn m e).1 = true ↔
       ∀ b ∈ (pathResults a hn m a.paths e).1, b = true)
  ∧ (∀ l : List Bool, (pathResults a hn m a.paths e).1.Perm l →
       (process a hn m e).1 = l.all id)
  ∧ mainRun a hn m true lock e =
      (MainOutcome.exited (if (process a hn m e).1 then 0 else 1),
       (process a hn m e).2)
  ∧ exitCode (MainOutcome.exited 0) = 0
  ∧ exitCode (MainOutcome.exited 1) = 1 := by
  have hall : (process a hn m e).1 = (pathResults a hn m a.paths e).1.all id := by
    rw [process, processPaths_eq_all]
    simp
  refine ⟨?_, ?_, ?_, rfl, rfl⟩
  · rw [hall, List.all_eq_true]
    simp
  · intro l hperm
    rw [hall, all_id_perm hperm]
  · simp [mainRun, mainWithLock, runBody, hlock, hclear]

/-- Witness for C1: a concrete one-path run where both commands succeed,
driven through `main`'s exit dispatch. -/
theorem C1_witness :
    mainRun sampleArgs "myhost" (fun s => s) true pidFreeSystem
        (Exec.mk [true, true] []) =
      (MainOutcome.exited
        (if (process sampleArgs "myhost" (fun s => s)
               (Exec.mk [true, true] [])).1 then 0 else 1),
       (process sampleArgs "myhost" (fun s => s)
          (Exec.mk [true, true] [])).2) :=
  (C1_overall_success sampleArgs "myhost" (fun s => s)
    (Exec.mk [true, true] []) pidFreeSystem false rfl rfl).2.2.1

/-- C2 (claim contradicted by the code): when the repository is absent
and `bup init` fails, `bail(3, ...)` raises `SystemExit(3)` inside the
`try`, `except SystemExit: return` swallows it and the process exits 0,
not 3; and an unhandled failure inside the guarded block (here the
`logging.warninging` AttributeError of the `--clear` branch) reaches the
bare `raise`, so it escapes `main` — the interpreter exits 1 with a
traceback, and the dead `bail(2, ...)` call never runs. -/
theorem C2_exit_code_behavior :
    (mainRun sampleArgs "myhost" (fun s => s) false pidFreeSystem
       (Exec.mk [false] [])).1 = MainOutcome.returned
  ∧ exitCode (mainRun sampleArgs "myhost" (fun s => s) false pidFreeSystem
       (Exec.mk [false] [])).1 = 0
  ∧ exitCode (mainRun sampleArgs "myhost" (fun s => s) false pidFreeSystem
       (Exec.mk [false] [])).1 ≠ 3
  ∧ (mainRun { sampleArgs with clear := true } "myhost" (fun s => s) true
       pidFreeSystem (Exec.mk [false] [])).1 = MainOutcome.uncaught
  ∧ exitCode (mainRun { sampleArgs with clear := true } "myhost"
       (fun s => s) true pidFreeSystem (Exec.mk [false] [])).1 = 1
  ∧ exitCode (mainRun { sampleArgs with clear := true } "myhost"
       (fun s => s) true pidFreeSystem (Exec.mk [false] [])).1 ≠ 2 :=
  ⟨rfl, rfl, by decide, rfl, rfl, by decide⟩

/-! ## Trace structure of a loop iteration -/

/-- Spawning a command appends exactly its call event to the trace. -/
theorem callCmd_log (c : List String) (e : Exec) :
    (callCmd c e).2.log = e.log ++ [Event.call c] := by
  obtain ⟨rs, lg⟩ := e
  cases rs <;> rfl

/-- An fsck invocation only appends to the trace. -/
theorem bupFsck_log (remote : Option String) (v : Nat) (pa rp : Bool)
    (e : Exec) : ∃ s, (bupFsck remote v pa rp e).2.log = e.log ++ s := by
  cases pa with
  | false =>
    cases rp with
    | false =>
      exact ⟨[Event.call (fsckBase remote v ++ ["--quick"])],
        by simp [bupFsck, callCmd_log]⟩
    | true =>
      exact ⟨[Event.call (fsckBase remote v ++ ["--repair"])],
        by simp [bupFsck, callCmd_log]⟩
  | true =>
    cases h : (callCmd (fsckBase remote v ++ ["--par2-ok"]) e).1 with
    | false =>
      exact ⟨[Event.call (fsckBase remote v ++ ["--par2-ok"])],
        by simp [bupFsck, h, callCmd_log]⟩
    | true =>
      refine ⟨[Event.call (fsckBase remote v ++ ["--par2-ok"]),
               Event.call (fsckBase remote v ++ ["--generate"])], ?_⟩
      simp [bupFsck, h, callCmd_log, List.append_assoc]

/-- The verify step only appends to the trace. -/
theorem verifyStep_log (remote : Option String) (v : Nat) (rp : Bool)
    (e : Exec) : ∃ s, (verifyStep remote v rp e).2.log = e.log ++ s := by
  obtain ⟨s1, h1⟩ := bupFsck_log remote v false rp e
  cases hf : (bupFsck remote v false rp e).1 with
  | true => exact ⟨s1, by simp [verifyStep, hf, h1]⟩
  | false =>
    obtain ⟨s2, h2⟩ :=
      bupFsck_log remote v false false (bupFsck remote v false rp e).2
    exact ⟨s1 ++ s2, by simp [verifyStep, hf, h1, h2, List.append_assoc]⟩

/-- Everything after the save command only appends to the trace. -/
theorem postSave_log (a : Args) (p : String) (e : Exec) :
    ∃ s, (postSave a p e).2.log = e.log ++ s := by
  cases hc : a.check with
  | false =>
    cases hp : a.parity with
    | false =>
      exact ⟨[Event.snapshotCleanup p],
        by simp [postSave, hc, hp, logCleanup]⟩
    | true =>
      obtain ⟨s2, h2⟩ := bupFsck_log a.remote a.verbose true false e
      exact ⟨s2 ++ [Event.snapshotCleanup p],
        by simp [postSave, hc, hp, logCleanup, h2, List.append_assoc]⟩
  | true =>
    obtain ⟨s1, h1⟩ := verifyStep_log a.remote a.verbose a.repair e
    cases hp : a.parity with
    | false =>
      exact ⟨s1 ++ [Event.snapshotCleanup p],
        by simp [postSave, hc, hp, logCleanup, h1, List.append_assoc]⟩
    | true =>
      obtain ⟨s2, h2⟩ := bupFsck_log a.remote a.verbose true false
        (verifyStep a.remote a.verbose a.repair e).2
      exact ⟨s1 ++ s2 ++ [Event.snapshotCleanup p],
        by simp [postSave, hc, hp, logCleanup, h1, h2, List.append_assoc]⟩

/-- A configuration derived from `a` that backs up exactly the two paths
`p` and `q` with no optional jobs (used by the two-path scenario of the
index-failure claim). -/
def twoPathArgs (a : Args) (p q : String) : Args :=
  { a with paths := [p, q], check := false, parity := false, clear := false }

/-- C6: when a path's index command fails, the iteration spawns no save
command and goes straight to snapshot cleanup with the path's flag
false; the loop then continues with the remaining paths; and in a
concrete two-path run whose first index fails while the second path
succeeds, the overall flag is false, the per-path flags are
`[false, true]`, and `main` exits 1. -/
theorem C6_index_failure_isolated (a : Args) (hn : String)
    (m : String → String) (p q : String) (rest : List String) (acc : Bool)
    (rs : List Bool) (lg : List Event) (lock : PidSystem) (st : Bool)
    (hlock : pidfileCreate lock = CreateResult.acquired st) :
    processPath a hn m p (Exec.mk (false :: rs) lg) =
      (false, Exec.mk rs (lg ++
        [Event.call (indexCmd a.verbose (m p) a.exclude a.excludeRx
           a.excludeFrom a.excludeRxFrom true),
         Event.snapshotCleanup p]))
  ∧ processPaths a hn m (p :: rest) acc (Exec.mk (false :: rs) lg) =
      processPaths a hn m rest false
        (Exec.mk rs (lg ++
          [Event.call (indexCmd a.verbose (m p) a.exclude a.excludeRx
             a.excludeFrom a.excludeRxFrom true),
           Event.snapshotCleanup p]))
  ∧ (pathResults (twoPathArgs a p q) hn m [p, q]
       (Exec.mk [false, true, true] [])).1 = [false, true]
  ∧ (process (twoPathArgs a p q) hn m
       (Exec.mk [false, true, true] [])).1 = false
  ∧ (mainRun (twoPathArgs a p q) hn m true lock
       (Exec.mk [false, true, true] [])).1 = MainOutcome.exited 1 := by
  have h1 : processPath a hn m p (Exec.mk (false :: rs) lg) =
      (false, Exec.mk rs (lg ++
        [Event.call (indexCmd a.verbose (m p) a.exclude a.excludeRx
           a.excludeFrom a.excludeRxFrom true),
         Event.snapshotCleanup p])) := by
    simp [processPath, callCmd, logCleanup]
  refine ⟨h1, ?_, ?_, ?_, ?_⟩
  · simp only [processPaths, h1]
    cases acc <;> rfl
  · simp [twoPathArgs, pathResults, processPath, callCmd, postSave,
      logCleanup]
  · simp [twoPathArgs, process, processPaths, processPath, callCmd,
      postSave, logCleanup]
  · simp [twoPathArgs, mainRun, mainWithLock, runBody, hlock, process,
      processPaths, processPath, callCmd, postSave, logCleanup]

/-- Witness for C6: the concrete two-path run exits 1 even though the
second path succeeded. -/
theorem C6_witness :
    (mainRun (twoPathArgs sampleArgs "/a" "/b") "h" (fun s => s) true
       pidFreeSystem (Exec.mk [false, true, true] [])).1 =
      MainOutcome.exited 1 :=
  (C6_index_failure_isolated sampleArgs "h" (fun s => s) "/a" "/b" [] true
    [] [] pidFreeSystem false rfl).2.2.2.2

/-- C8 counterexample: with base name `myhost`, no explicit branch name,
and source path `/home`, the computed branch is `myhost-_home` (hyphen
join, slash replaced by underscore), not `myhost_home` as the claim
states. -/
theorem C8_counterexample :
    computeBranch none (some "myhost") "otherhost" "/home" = "myhost-_home"
  ∧ computeBranch none (some "myhost") "otherhost" "/home" ≠ "myhost_home" := by
  exact ⟨rfl, by decide⟩

/-- C8 as amended: in such a run with snapshotting disabled, the loop
iteration for `/home` calls index and then save with the branch name
`myhost-_home`, followed by the snapshot cleanup. -/
theorem C8_branch_name (a : Args) (hn : String) (rs : List Bool)
    (lg : List Event) (hname : a.name = some "myhost")
    (hbn : a.branchName = none) (hcheck : a.check = false)
    (hparity : a.parity = false) :
    (processPath a hn (fun s => s) "/home" (Exec.mk (true :: rs) lg)).2.log =
      lg ++ [Event.call (indexCmd a.verbose "/home" a.exclude a.excludeRx
               a.excludeFrom a.excludeRxFrom true),
             Event.call (saveCmd a.verbose ["/home"] "myhost-_home" "/home"
               a.remote),
             Event.snapshotCleanup "/home"] := by
  have hbr : computeBranch a.branchName a.name hn "/home" = "myhost-_home" := by
    rw [hbn, hname]; rfl
  cases rs with
  | nil =>
    simp [processPath, callCmd, postSave, hcheck, hparity, logCleanup, hbr]
  | cons r rs' =>
    simp [processPath, callCmd, postSave, hcheck, hparity, logCleanup, hbr]

/-- Witness for C8: the concrete run on `sampleArgs`. -/
theorem C8_witness :
    (processPath sampleArgs "otherhost" (fun s => s) "/home"
        (Exec.mk [true, true] [])).2.log =
      [] ++ [Event.call (indexCmd sampleArgs.verbose "/home"
               sampleArgs.exclude sampleArgs.excludeRx sampleArgs.excludeFrom
               sampleArgs.excludeRxFrom true),
             Event.call (saveCmd sampleArgs.verbose ["/home"] "myhost-_home"
               "/home" sampleArgs.remote),
             Event.snapshotCleanup "/home"] :=
  C8_branch_name sampleArgs "otherhost" [true] [] rfl rfl rfl rfl

/-- C10: when a path's index succeeds, the save command the iteration
spawns carries the materialized path both as the sole path to save and
as the graft/strip argument; and whenever the materialized path contains
no separator character, that command uses `--strip-path` with the
materialized path (so the original source path is never passed as a
`--graft` mapping). -/
theorem C10_save_materialized_strip (a : Args) (hn : String)
    (m : String → String) (p : String) (rs : List Bool) (lg : List Event) :
    (∃ suffix : List Event,
       (processPath a hn m p (Exec.mk (true :: rs) lg)).2.log =
         lg ++ [Event.call (indexCmd a.verbose (m p) a.exclude a.excludeRx
                  a.excludeFrom a.excludeRxFrom true),
                Event.call (saveCmd a.verbose [m p]
                  (computeBranch a.branchName a.name hn p) (m p) a.remote)]
           ++ suffix)
  ∧ (strHasChar (m p) '=' = false →
       saveCmd a.verbose [m p] (computeBranch a.branchName a.name hn p)
           (m p) a.remote =
         ["bup", "save"] ++ saveVerbosity a.verbose ++ saveRemote a.remote
         ++ ["--name", computeBranch a.branchName a.name hn p]
         ++ ["--strip-path", m p] ++ saveTree a.verbose ++ [m p]) := by
  constructor
  · cases rs with
    | nil =>
      obtain ⟨s, hs⟩ := postSave_log a p (Exec.mk []
        (lg ++ [Event.call (indexCmd a.verbose (m p) a.exclude a.excludeRx
           a.excludeFrom a.excludeRxFrom true)]
         ++ [Event.call (saveCmd a.verbose [m p]
              (computeBranch a.branchName a.name hn p) (m p) a.remote)]))
      refine ⟨s, ?_⟩
      simpa [processPath, callCmd, List.append_assoc] using hs
    | cons r rest =>
      obtain ⟨s, hs⟩ := postSave_log a p (Exec.mk rest
        (lg ++ [Event.call (indexCmd a.verbose (m p) a.exclude a.excludeRx
           a.excludeFrom a.excludeRxFrom true)]
         ++ [Event.call (saveCmd a.verbose [m p]
              (computeBranch a.branchName a.name hn p) (m p) a.remote)]))
      refine ⟨s, ?_⟩
      simpa [processPath, callCmd, List.append_assoc] using hs
  · intro h
    simp [saveCmd, saveGraft, h]

/-- Witness for C10: a materialized path without a separator goes to
`--strip-path`. -/
theorem C10_witness :
    saveCmd sampleArgs.verbose ["/data"]
        (computeBranch sampleArgs.branchName sampleArgs.name "h" "/data")
        "/data" sampleArgs.remote =
      ["bup", "save"] ++ saveVerbosity sampleArgs.verbose
      ++ saveRemote sampleArgs.remote
      ++ ["--name", computeBranch sampleArgs.branchName sampleArgs.name "h"
            "/data"]
      ++ ["--strip-path", "/data"] ++ saveTree sampleArgs.verbose
      ++ ["/data"] :=
  (C10_save_materialized_strip sampleArgs "h" (fun s => s) "/data" [] []).2
    (by decide)

/-! ## `LvmSnapshot.cleanup` -/

/-- The filesystem/volume facts `LvmSnapshot.cleanup` observes and
mutates: the object's `self.exists` flag, whether the snapshot's mount
point is currently mounted (`os.path.ismount`), whether the mount-point
directory exists and whether it is empty (`os.removedirs` succeeds only
on an existing empty directory), and whether the snapshot volume's
device node exists as a block device (`os.stat` + `S_ISBLK`). -/
structure LvmState where
  snapExists : Bool
  mounted : Bool
  dirExists : Bool
  dirEmpty : Bool
  deviceIsBlock : Bool
deriving DecidableEq, Repr

/-- The externally visible steps `LvmSnapshot.cleanup` can take: the
`os.wait()` for children, the `umount` call, the `os.removedirs`
attempt, and the `lvremove` call. -/
inductive CleanupAction where
  | wait
  | umount
  | rmdirAttempt
  | lvremove
deriving DecidableEq, Repr

/-- Model of `LvmSnapshot.cleanup` (source lines 510-547).  A non-forced
call on a handle whose `exists` flag is down returns immediately.
Otherwise the flag is cleared and the routine waits for children,
unmounts the mount point if mounted (a failure only warns, `umountOk`
false), attempts `os.removedirs` (errors swallowed; it removes the
directory only when it exists, is empty and is no longer a mount point),
and force-removes the snapshot volume when its device node is a block
device (a failure only warns, `lvremoveOk` false; a missing node is the
normal early return). -/
def lvmCleanup (umountOk lvremoveOk force : Bool) (s : LvmState) :
    LvmState × List CleanupAction :=
  if !s.snapExists && !force then (s, [])
  else
    let s1 : LvmState := { s with snapExists := false }
    let s2 := if s1.mounted && umountOk then { s1 with mounted := false }
              else s1
    let acts2 := if s1.mounted then [CleanupAction.wait, CleanupAction.umount]
                 else [CleanupAction.wait]
    let s3 := if s2.dirExists && !s2.mounted && s2.dirEmpty then
                { s2 with dirExists := false }
              else s2
    let acts3 := acts2 ++ [CleanupAction.rmdirAttempt]
    let s4 := if s3.deviceIsBlock && lvremoveOk then
                { s3 with deviceIsBlock := false }
              else s3
    let acts4 := if s3.deviceIsBlock then acts3 ++ [CleanupAction.lvremove]
                 else acts3
    (s4, acts4)

/-- C9: a second non-forced cleanup right after a first one returns the
state unchanged and performs no action at all (in particular it cannot
raise), whatever the initial state — including partially created
snapshots — and whatever the first cleanup's external commands did; and
when the first cleanup's external commands succeed and the mount-point
directory is empty underneath, no mount, directory or backing volume is
left behind.  The hypothesis is the invariant `LvmSnapshot.__enter__`
maintains: nothing is mounted or created before `self.exists` is set. -/
theorem C9_cleanup_idempotent (s : LvmState) (u1 l1 u2 l2 : Bool)
    (hinv : s.snapExists = false →
      s.mounted = false ∧ s.dirExists = false ∧ s.deviceIsBlock = false) :
    lvmCleanup u2 l2 false (lvmCleanup u1 l1 false s).1 =
      ((lvmCleanup u1 l1 false s).1, [])
  ∧ (u1 = true → l1 = true → s.dirEmpty = true →
       (lvmCleanup u1 l1 false s).1.mounted = false
     ∧ (lvmCleanup u1 l1 false s).1.dirExists = false
     ∧ (lvmCleanup u1 l1 false s).1.deviceIsBlock = false) := by
  obtain ⟨se, mo, de, dem, db⟩ := s
  constructor
  · cases se <;> cases mo <;> cases de <;> cases dem <;> cases db <;>
      cases u1 <;> cases l1 <;> simp [lvmCleanup]
  · intro hu hl hde
    subst hu hl
    simp only at hde
    subst hde
    cases se with
    | false =>
      obtain ⟨h1, h2, h3⟩ := hinv rfl
      simp only at h1 h2 h3
      subst h1; subst h2; subst h3
      simp [lvmCleanup]
    | true => cases mo <;> cases de <;> cases db <;> simp [lvmCleanup]

/-- Witness for C9: a fully created snapshot, all external commands
succeeding. -/
theorem C9_witness :
    (lvmCleanup true true false
       (lvmCleanup true true false
         (LvmState.mk true true true true true)).1 =
      ((lvmCleanup true true false
         (LvmState.mk true true true true true)).1, []))
  ∧ (lvmCleanup true true false
       (LvmState.mk true true true true true)).1.mounted = false
  ∧ (lvmCleanup true true false
       (LvmState.mk true true true true true)).1.dirExists = false
  ∧ (lvmCleanup true true false
       (LvmState.mk true true true true true)).1.deviceIsBlock = false :=
  ⟨(C9_cleanup_idempotent (LvmState.mk true true true true true) true true
      true true (fun h => Bool.noConfusion h)).1,
   (C9_cleanup_idempotent (LvmState.mk true true true true true) true true
      true true (fun h => Bool.noConfusion h)).2 rfl rfl rfl⟩

end BupCron
